import Mathlib

/-!
Shallow embedding of the financial-statement derivation engine of
`src/python.py` (function `process_financial_data`, the liquidity-ratio
block, and the key-metrics excerpt `data_for_ai`), together with theorems
checking the claims of the specification against it.

Numeric cells are modelled as `Option ℚ`: `some q` is a cell whose text
parses to the number `q`, `none` is a cell `pd.to_numeric(..., errors =
coerce)` turns into NaN (unparsable text).  Real arithmetic is modelled
over `ℚ`; the one place the source can divide by an exact zero (the
liquidity ratio) is modelled with an IEEE-style result type `FVal`
mirroring numpy float64 true division.
-/

namespace FinApp

/-- One raw row of the uploaded statement: the label column `Chỉ tiêu`
and the two value cells `Năm trước` / `Năm sau`.  `none` models a cell
whose text does not parse as a number. -/
structure RawRow where
  chiTieu : String
  namTruoc : Option ℚ
  namSau : Option ℚ
deriving DecidableEq, Repr

/-- A row after `pd.to_numeric(...).fillna(0)`: both values are numbers. -/
structure NumRow where
  chiTieu : String
  namTruoc : ℚ
  namSau : ℚ
deriving DecidableEq, Repr

/-- A row of the returned frame: the three original columns plus the three
derived percentage columns added by `process_financial_data`. -/
structure ProcessedRow where
  chiTieu : String
  namTruoc : ℚ
  namSau : ℚ
  tocDoTangTruong : ℚ
  tyTrongNamTruoc : ℚ
  tyTrongNamSau : ℚ
deriving DecidableEq, Repr

/-- `pd.to_numeric(x, errors = coerce).fillna(0)` on one cell: an
unparsable cell becomes `0`. -/
def toNumeric (c : Option ℚ) : ℚ := c.getD 0

/-- Numeric normalization of a whole row (lines 20-22 of the source). -/
def normalizeRow (r : RawRow) : NumRow :=
  { chiTieu := r.chiTieu, namTruoc := toNumeric r.namTruoc, namSau := toNumeric r.namSau }

/-- The zero-guard constant `1e-9` used by the source. -/
def eps : ℚ := 1 / 1000000000

/-- The zero-guarded denominator of the source: `x if x != 0 else 1e-9`
(the ternary at lines 44-45, and `.replace(0, 1e-9)` at line 27 acts the
same way element-wise). -/
def denom (x : ℚ) : ℚ := if x = 0 then eps else x

/-- Case folding of one character, modelling the lower-casing that
`str.contains(..., case=False)` performs, for ASCII plus the Vietnamese
letters occurring in the label patterns of this program. -/
def charFold (c : Char) : Char :=
  match c with
  | 'Ổ' => 'ổ'
  | 'Ộ' => 'ộ'
  | 'À' => 'à'
  | 'Ả' => 'ả'
  | 'Ắ' => 'ắ'
  | 'Ạ' => 'ạ'
  | 'Ợ' => 'ợ'
  | c => c.toLower

/-- Upper-casing of one character, modelling the Python `str.upper()` method for
ASCII plus the Vietnamese letters occurring in the label patterns of this
program. -/
def charUpper (c : Char) : Char :=
  match c with
  | 'ổ' => 'Ổ'
  | 'ộ' => 'Ộ'
  | 'à' => 'À'
  | 'ả' => 'Ả'
  | 'ắ' => 'Ắ'
  | 'ạ' => 'Ạ'
  | 'ợ' => 'Ợ'
  | c => c.toUpper

/-- Whether `pat` occurs contiguously in `l` (plain substring test; the
patterns of the source contain no regex metacharacters). -/
def listContainsSub [DecidableEq α] : List α → List α → Bool
  | pat, [] => pat.isEmpty
  | pat, c :: cs => pat.isPrefixOf (c :: cs) || listContainsSub pat cs

/-- `Series.str.contains(pat, case=False)` on one label: case-insensitive
substring test. -/
def containsCI (s pat : String) : Bool :=
  listContainsSub (pat.toList.map charFold) (s.toList.map charFold)

/-- The Python `str.strip()` method on a character list: drop whitespace from both
ends. -/
def stripChars (cs : List Char) : List Char :=
  ((cs.dropWhile Char.isWhitespace).reverse.dropWhile Char.isWhitespace).reverse

/-- `label.upper().strip()` as used in the availability test of
`data_for_ai` (line 235 of the source). -/
def upperStrip (s : String) : String :=
  String.mk (stripChars (s.toList.map charUpper))

/-- The anchor label pattern `TỔNG CỘNG TÀI SẢN` (total assets). -/
def anchorPat : String := "TỔNG CỘNG TÀI SẢN"

/-- The short-term-assets label pattern `TÀI SẢN NGẮN HẠN`. -/
def tsnhPat : String := "TÀI SẢN NGẮN HẠN"

/-- The short-term-liabilities label pattern `NỢ NGẮN HẠN`. -/
def nnhPat : String := "NỢ NGẮN HẠN"

/-- Row predicate: the label contains the anchor pattern, case-insensitively. -/
def anchorMatch (s : String) : Bool := containsCI s anchorPat

/-- Row predicate for the short-term-assets pattern. -/
def tsnhMatch (s : String) : Bool := containsCI s tsnhPat

/-- Row predicate for the short-term-liabilities pattern. -/
def nnhMatch (s : String) : Bool := containsCI s nnhPat

/-- The error raised by `process_financial_data` (the `ValueError` at line
35): the total-assets anchor row is absent. -/
inductive DeriveError where
  | missingAnchorRow
deriving DecidableEq, Repr

/-- Adds the three derived columns to one normalized row, given the two
zero-guarded anchor divisors (lines 26-28 and 48-49 of the source). -/
def enrichRow (divisorN1 divisorN : ℚ) (r : NumRow) : ProcessedRow :=
  { chiTieu := r.chiTieu
    namTruoc := r.namTruoc
    namSau := r.namSau
    tocDoTangTruong := (r.namSau - r.namTruoc) / denom r.namTruoc * 100
    tyTrongNamTruoc := r.namTruoc / divisorN1 * 100
    tyTrongNamSau := r.namSau / divisorN * 100 }

/-- `process_financial_data` (lines 16-52 of the source): coerce both value
columns to numbers, compute per-row growth, locate the first
anchor-matching row (`.iloc[0]` of the filtered frame), raise if none, and
add the two weight columns using the ternary-guarded anchor values. -/
def process_financial_data (rows : List RawRow) : Except DeriveError (List ProcessedRow) :=
  let nrows := rows.map normalizeRow
  match nrows.find? (fun r => anchorMatch r.chiTieu) with
  | none => Except.error DeriveError.missingAnchorRow
  | some anchor =>
      Except.ok (nrows.map (enrichRow (denom anchor.namTruoc) (denom anchor.namSau)))

/-- IEEE-754-style value as produced by numpy float64 true division:
finite, ±infinity, or NaN. -/
inductive FVal where
  | fin : ℚ → FVal
  | posInf : FVal
  | negInf : FVal
  | nan : FVal
deriving DecidableEq, Repr

/-- numpy float64 true division on finite operands: finite quotient when
the divisor is nonzero, otherwise a signed infinity, or NaN for `0/0`. -/
def pydiv (a b : ℚ) : FVal :=
  if b = 0 then
    if 0 < a then FVal.posInf
    else if a < 0 then FVal.negInf
    else FVal.nan
  else FVal.fin (a / b)

/-- The liquidity (current-ratio) block, lines 189-220 of the source:
take the first short-term-assets row and the first short-term-liabilities
row of the processed frame and divide per period without any zero-guard;
if either `.iloc[0]` raises `IndexError` the whole metric degrades to
`N/A` for both periods (`none` here).  The pair is
(prior-period ratio, current-period ratio). -/
def thanh_toan_hien_hanh (rows : List ProcessedRow) : Option (FVal × FVal) :=
  match rows.find? (fun r => tsnhMatch r.chiTieu),
        rows.find? (fun r => nnhMatch r.chiTieu) with
  | some tsnh, some nnh =>
      some (pydiv tsnh.namTruoc nnh.namTruoc, pydiv tsnh.namSau nnh.namSau)
  | _, _ => none

/-- The short-term-assets growth entry of the `data_for_ai` excerpt
(line 235 of the source): included only when the literal pattern is a
member of the list of upper-cased, stripped labels (an exact match after
`upper`/`strip`); the value shown is then the growth of the *first* row
matching by case-insensitive substring. -/
def tang_truong_tsnh_entry (rows : List ProcessedRow) : Option ℚ :=
  if rows.any (fun r => upperStrip r.chiTieu == tsnhPat) then
    (rows.find? (fun r => tsnhMatch r.chiTieu)).map (fun r => r.tocDoTangTruong)
  else none

/-- The caller-visible session state around the upload handler: the raw
frame read from the file and the processed frame stored for chat. -/
structure Session where
  dfRaw : List RawRow
  dfProcessed : Option (List ProcessedRow)
deriving DecidableEq, Repr

/-- The upload handler, lines 161-172 of the source: the engine runs on
`df_raw.copy()` so the raw frame is never written to; on a `ValueError`
the handler aborts before assigning, leaving the session unchanged. -/
def uploadStep (s : Session) : Session :=
  match process_financial_data s.dfRaw with
  | Except.ok out => { dfRaw := s.dfRaw, dfProcessed := some out }
  | Except.error _ => s

/-! ## General lemmas about the engine -/

theorem find?_label_normalize (rows : List RawRow) (p : String → Bool) :
    (rows.map normalizeRow).find? (fun r => p r.chiTieu) =
      (rows.find? (fun r => p r.chiTieu)).map normalizeRow := by
  rw [List.find?_map]; rfl

theorem find?_label_enrich (l : List NumRow) (d1 d2 : ℚ) (p : String → Bool) :
    (l.map (enrichRow d1 d2)).find? (fun r => p r.chiTieu) =
      (l.find? (fun r => p r.chiTieu)).map (enrichRow d1 d2) := by
  rw [List.find?_map]; rfl

theorem any_label_normalize (rows : List RawRow) (p : String → Bool) :
    (rows.map normalizeRow).any (fun r => p r.chiTieu) = rows.any (fun r => p r.chiTieu) := by
  induction rows with
  | nil => rfl
  | cons r rest ih => simp only [List.map_cons, List.any_cons, ih]; rfl

theorem process_ok_of_find (rows : List RawRow) (a : NumRow)
    (h : (rows.map normalizeRow).find? (fun r => anchorMatch r.chiTieu) = some a) :
    process_financial_data rows =
      Except.ok ((rows.map normalizeRow).map
        (enrichRow (denom a.namTruoc) (denom a.namSau))) := by
  simp only [process_financial_data, h]

theorem process_err_of_find (rows : List RawRow)
    (h : (rows.map normalizeRow).find? (fun r => anchorMatch r.chiTieu) = none) :
    process_financial_data rows = Except.error DeriveError.missingAnchorRow := by
  simp only [process_financial_data, h]

theorem denom_ne_zero (x : ℚ) : denom x ≠ 0 := by
  unfold denom eps
  split
  · norm_num
  · assumption

theorem get?_map_map (rows : List RawRow) (d1 d2 : ℚ) (i : ℕ) (r : RawRow)
    (hr : rows.get? i = some r) :
    ((rows.map normalizeRow).map (enrichRow d1 d2)).get? i =
      some (enrichRow d1 d2 (normalizeRow r)) := by
  rw [List.get?_map, List.get?_map, hr]; rfl

theorem anchor_of_any (rows : List RawRow)
    (ha : rows.any (fun r => anchorMatch r.chiTieu) = true) :
    ∃ a, (rows.map normalizeRow).find? (fun r => anchorMatch r.chiTieu) = some a := by
  have h1 : (rows.map normalizeRow).any (fun r => anchorMatch r.chiTieu) = true := by
    rw [any_label_normalize]; exact ha
  exact Option.isSome_iff_exists.mp (List.find?_isSome.mpr (List.any_eq_true.mp h1))

/-! ## Demo statements used by witnesses and concrete checks -/

/-- A statement with the anchor row and a row whose prior value is `0`. -/
def demoA : List RawRow :=
  [⟨"TỔNG CỘNG TÀI SẢN", some 1000, some 1000⟩,
   ⟨"Hàng tồn kho", some 0, some 50⟩]

/-- A statement with no row containing the total-assets anchor pattern. -/
def demoNoAnchor : List RawRow :=
  [⟨"Tiền mặt", some 1, some 2⟩,
   ⟨"TÀI SẢN NGẮN HẠN", some 400, some 600⟩]

/-! ## Claim theorems -/

/-- C1: on every successful derivation each row independently gets
`growth_pct = (current - prior) / denom(prior) * 100` with
`denom(x) = x if x != 0 else 1e-9`; the guarded denominator is never `0`,
and a row with `prior = 0` gets `current / 1e-9 * 100`, positive whenever
`current` is positive (so the result is a large finite number, never an
error). -/
theorem c1_growth_per_row (rows : List RawRow)
    (ha : rows.any (fun r => anchorMatch r.chiTieu) = true) :
    ∃ out, process_financial_data rows = Except.ok out ∧ out.length = rows.length ∧
      ∀ i r, rows.get? i = some r → ∃ pr, out.get? i = some pr ∧
        pr.tocDoTangTruong =
          (toNumeric r.namSau - toNumeric r.namTruoc) / denom (toNumeric r.namTruoc) * 100 ∧
        denom (toNumeric r.namTruoc) ≠ 0 ∧
        (toNumeric r.namTruoc = 0 →
          pr.tocDoTangTruong = toNumeric r.namSau / eps * 100 ∧
          (0 < toNumeric r.namSau → 0 < pr.tocDoTangTruong)) := by
  obtain ⟨a, hfind⟩ := anchor_of_any rows ha
  refine ⟨_, process_ok_of_find rows a hfind, by simp, ?_⟩
  intro i r hr
  refine ⟨_, get?_map_map rows _ _ i r hr, rfl, denom_ne_zero _, ?_⟩
  intro h0
  have hds : (enrichRow (denom a.namTruoc) (denom a.namSau) (normalizeRow r)).tocDoTangTruong
      = toNumeric r.namSau / eps * 100 := by
    show (toNumeric r.namSau - toNumeric r.namTruoc) / denom (toNumeric r.namTruoc) * 100 = _
    rw [h0, denom, if_pos rfl, sub_zero]
  refine ⟨hds, ?_⟩
  intro hpos
  rw [hds]
  have he : (0:ℚ) < eps := by norm_num [eps]
  exact mul_pos (div_pos hpos he) (by norm_num)

/-- C1 witness: the hypotheses of `c1_growth_per_row` hold on the concrete
statement `demoA`, whose second row has prior value `0`. -/
theorem c1_growth_witness :
    demoA.any (fun r => anchorMatch r.chiTieu) = true ∧
    (∃ out, process_financial_data demoA = Except.ok out ∧ out.length = demoA.length ∧
      ∀ i r, demoA.get? i = some r → ∃ pr, out.get? i = some pr ∧
        pr.tocDoTangTruong =
          (toNumeric r.namSau - toNumeric r.namTruoc) / denom (toNumeric r.namTruoc) * 100 ∧
        denom (toNumeric r.namTruoc) ≠ 0 ∧
        (toNumeric r.namTruoc = 0 →
          pr.tocDoTangTruong = toNumeric r.namSau / eps * 100 ∧
          (0 < toNumeric r.namSau → 0 < pr.tocDoTangTruong))) :=
  ⟨by decide, c1_growth_per_row demoA (by decide)⟩

/-- C2: when the label of some row contains the anchor pattern, the engine
takes the *first* such row (the `List.find?` semantics of the filtered
filtered frame under `.iloc[0]`), succeeds, and gives every row
`prior_weight = prior / denom(anchor_prior) * 100` and
`current_weight = current / denom(anchor_current) * 100`, the two guards
applied independently per period. -/
theorem c2_weights (rows : List RawRow) (a : RawRow)
    (hfind : rows.find? (fun r => anchorMatch r.chiTieu) = some a) :
    ∃ out, process_financial_data rows = Except.ok out ∧ out.length = rows.length ∧
      ∀ i r, rows.get? i = some r → ∃ pr, out.get? i = some pr ∧
        pr.tyTrongNamTruoc = toNumeric r.namTruoc / denom (toNumeric a.namTruoc) * 100 ∧
        pr.tyTrongNamSau = toNumeric r.namSau / denom (toNumeric a.namSau) * 100 := by
  have hfind2 : (rows.map normalizeRow).find? (fun r => anchorMatch r.chiTieu)
      = some (normalizeRow a) := by
    rw [find?_label_normalize, hfind]; rfl
  refine ⟨_, process_ok_of_find rows _ hfind2, by simp, ?_⟩
  intro i r hr
  exact ⟨_, get?_map_map rows _ _ i r hr, rfl, rfl⟩

/-- C2 witness: the hypotheses of `c2_weights` hold on `demoA`, whose
first (and only) anchor-matching row is its first row. -/
theorem c2_weights_witness :
    demoA.find? (fun r => anchorMatch r.chiTieu) = some ⟨"TỔNG CỘNG TÀI SẢN", some 1000, some 1000⟩ ∧
    (∃ out, process_financial_data demoA = Except.ok out ∧ out.length = demoA.length ∧
      ∀ i r, demoA.get? i = some r → ∃ pr, out.get? i = some pr ∧
        pr.tyTrongNamTruoc = toNumeric r.namTruoc /
          denom (toNumeric (Option.some (1000:ℚ))) * 100 ∧
        pr.tyTrongNamSau = toNumeric r.namSau /
          denom (toNumeric (Option.some (1000:ℚ))) * 100) :=
  ⟨by decide, c2_weights demoA ⟨"TỔNG CỘNG TÀI SẢN", some 1000, some 1000⟩ (by decide)⟩

/-- C3: when the label of no row contains the anchor pattern the engine fails
with the missing-anchor error and returns no enriched output at all. -/
theorem c3_missing_anchor (rows : List RawRow)
    (h : rows.any (fun r => anchorMatch r.chiTieu) = false) :
    process_financial_data rows = Except.error DeriveError.missingAnchorRow := by
  apply process_err_of_find
  rw [List.find?_eq_none]
  intro x hx
  obtain ⟨r, hr, rfl⟩ := List.mem_map.mp hx
  exact List.any_eq_false.mp h r hr

/-- C3 witness: `demoNoAnchor` has liquidity rows but no anchor row, and
the engine rejects it. -/
theorem c3_missing_anchor_witness :
    demoNoAnchor.any (fun r => anchorMatch r.chiTieu) = false ∧
    process_financial_data demoNoAnchor = Except.error DeriveError.missingAnchorRow :=
  ⟨by decide, c3_missing_anchor demoNoAnchor (by decide)⟩

theorem any_label_of_map (rows : List RawRow) (p : String → Bool) :
    (rows.map (fun r => r.chiTieu)).any p = rows.any (fun r => p r.chiTieu) := by
  induction rows with
  | nil => rfl
  | cons r rest ih => simp only [List.map_cons, List.any_cons, ih]

/-- C4: success or failure of the engine is a function of the label column
alone (an unparsable value cell can never make it fail), and on success
every unparsable cell has been coerced to `0` before any ratio was
computed: the value columns of the output are exactly `toNumeric` of the
input columns. -/
theorem c4_coerce_never_raises (rows : List RawRow) :
    ((process_financial_data rows).isOk = (rows.map (fun r => r.chiTieu)).any anchorMatch) ∧
    ∀ out i r, process_financial_data rows = Except.ok out → rows.get? i = some r →
      ∃ pr, out.get? i = some pr ∧ pr.namTruoc = toNumeric r.namTruoc ∧
        pr.namSau = toNumeric r.namSau ∧
        (r.namTruoc = none → pr.namTruoc = 0) ∧ (r.namSau = none → pr.namSau = 0) := by
  constructor
  · cases hfind : (rows.map normalizeRow).find? (fun r => anchorMatch r.chiTieu) with
    | none =>
        rw [process_err_of_find rows hfind, any_label_of_map, ← any_label_normalize]
        have : (rows.map normalizeRow).any (fun r => anchorMatch r.chiTieu) = false := by
          rw [List.any_eq_false]
          intro x hx
          exact List.find?_eq_none.mp hfind x hx
        rw [this]; rfl
    | some a =>
        rw [process_ok_of_find rows a hfind, any_label_of_map, ← any_label_normalize]
        have : (rows.map normalizeRow).any (fun r => anchorMatch r.chiTieu) = true := by
          rw [List.any_eq_true]
          exact List.find?_isSome.mp (by rw [hfind]; rfl)
        rw [this]; rfl
  · intro out i r hout hr
    cases hfind : (rows.map normalizeRow).find? (fun r => anchorMatch r.chiTieu) with
    | none => rw [process_err_of_find rows hfind] at hout; exact absurd hout (by simp)
    | some a =>
        rw [process_ok_of_find rows a hfind] at hout
        obtain rfl := (Except.ok.injEq _ _).mp hout.symm
        refine ⟨_, get?_map_map rows _ _ i r hr, rfl, rfl, ?_, ?_⟩
        · intro hnone
          show toNumeric r.namTruoc = 0
          rw [hnone]; rfl
        · intro hnone
          show toNumeric r.namSau = 0
          rw [hnone]; rfl

/-- A statement whose value cells are malformed text (coerced to `0`)
but whose anchor row is present. -/
def demoMalformed : List RawRow :=
  [⟨"TỔNG CỘNG TÀI SẢN", some 1000, some 1000⟩,
   ⟨"Phải thu khách hàng", none, some 10⟩]

/-- The enriched frame the engine produces on `demoMalformed`. -/
def demoMalformedOut : List ProcessedRow :=
  [⟨"TỔNG CỘNG TÀI SẢN", 1000, 1000, 0, 100, 100⟩,
   ⟨"Phải thu khách hàng", 0, 10, 1000000000000, 0, 1⟩]

theorem process_demoMalformed :
    process_financial_data demoMalformed = Except.ok demoMalformedOut := by
  rw [process_ok_of_find demoMalformed ⟨"TỔNG CỘNG TÀI SẢN", 1000, 1000⟩ (by decide)]
  norm_num [demoMalformed, demoMalformedOut, normalizeRow, toNumeric, enrichRow, denom, eps]

/-- C4 witness: `demoMalformed` has an unparsable prior cell, the engine
still succeeds, and that cell reads `0` in the output. -/
theorem c4_coerce_witness :
    process_financial_data demoMalformed = Except.ok demoMalformedOut ∧
    demoMalformed.get? 1 = some ⟨"Phải thu khách hàng", none, some 10⟩ ∧
    ∃ pr, demoMalformedOut.get? 1 = some pr ∧
      pr.namTruoc = toNumeric none ∧ pr.namSau = toNumeric (some 10) ∧
      ((none : Option ℚ) = none → pr.namTruoc = 0) ∧
      ((some (10:ℚ)) = none → pr.namSau = 0) :=
  ⟨process_demoMalformed, by decide,
   (c4_coerce_never_raises demoMalformed).2 demoMalformedOut 1
     ⟨"Phải thu khách hàng", none, some 10⟩ process_demoMalformed (by decide)⟩

/-- C5: with an anchor row present but a short-term-assets or a
short-term-liabilities row absent, the derivation of growth and weights
still completes for every row, and the liquidity metric alone degrades to
`N/A` (`none`) for both periods. -/
theorem c5_liquidity_na (rows : List RawRow)
    (ha : rows.any (fun r => anchorMatch r.chiTieu) = true)
    (hmiss : rows.any (fun r => tsnhMatch r.chiTieu) = false ∨
             rows.any (fun r => nnhMatch r.chiTieu) = false) :
    ∃ out, process_financial_data rows = Except.ok out ∧ out.length = rows.length ∧
      thanh_toan_hien_hanh out = none := by
  obtain ⟨a, hfind⟩ := anchor_of_any rows ha
  refine ⟨_, process_ok_of_find rows a hfind, by simp, ?_⟩
  have key : ∀ p : String → Bool, rows.any (fun r => p r.chiTieu) = false →
      ((rows.map normalizeRow).map
        (enrichRow (denom a.namTruoc) (denom a.namSau))).find? (fun r => p r.chiTieu) = none := by
    intro p hp
    rw [find?_label_enrich, find?_label_normalize]
    have hnone : rows.find? (fun r => p r.chiTieu) = none := by
      rw [List.find?_eq_none]
      intro x hx
      exact List.any_eq_false.mp hp x hx
    rw [hnone]; rfl
  unfold thanh_toan_hien_hanh
  rcases hmiss with h | h
  · rw [key _ h]
  · rw [key _ h]
    cases ((rows.map normalizeRow).map
        (enrichRow (denom a.namTruoc) (denom a.namSau))).find? (fun r => tsnhMatch r.chiTieu) <;> rfl

/-- A statement with the anchor row only: no liquidity rows at all. -/
def demoAnchorOnly : List RawRow :=
  [⟨"TỔNG CỘNG TÀI SẢN", some 1000, some 1000⟩]

/-- C5 witness: on the anchor-only statement the engine succeeds and the
liquidity metric is `N/A`. -/
theorem c5_liquidity_na_witness :
    demoAnchorOnly.any (fun r => anchorMatch r.chiTieu) = true ∧
    demoAnchorOnly.any (fun r => tsnhMatch r.chiTieu) = false ∧
    (∃ out, process_financial_data demoAnchorOnly = Except.ok out ∧
      out.length = demoAnchorOnly.length ∧ thanh_toan_hien_hanh out = none) :=
  ⟨by decide, by decide, c5_liquidity_na demoAnchorOnly (by decide) (Or.inl (by decide))⟩

/-- C6: the engine is a pure function of the raw rows: the upload handler
never changes the caller-visible raw frame, re-running it on the same
session is the same as running it once, and equal raw inputs give equal
outputs. -/
theorem c6_pure_idempotent (s t : Session) :
    (uploadStep s).dfRaw = s.dfRaw ∧
    uploadStep (uploadStep s) = uploadStep s ∧
    (s.dfRaw = t.dfRaw → process_financial_data s.dfRaw = process_financial_data t.dfRaw) := by
  refine ⟨?_, ?_, fun h => by rw [h]⟩
  · unfold uploadStep
    cases process_financial_data s.dfRaw <;> rfl
  · cases h : process_financial_data s.dfRaw with
    | error e => simp [uploadStep, h]
    | ok out => simp [uploadStep, h]

/-- C6 witness: `c6_pure_idempotent` instantiated on a concrete session
holding `demoA`, its inner implication discharged by reflexivity. -/
theorem c6_pure_idempotent_witness :
    (uploadStep ⟨demoA, none⟩).dfRaw = Session.dfRaw ⟨demoA, none⟩ ∧
    uploadStep (uploadStep ⟨demoA, none⟩) = uploadStep ⟨demoA, none⟩ ∧
    process_financial_data (Session.dfRaw ⟨demoA, none⟩) =
      process_financial_data (Session.dfRaw ⟨demoA, none⟩) :=
  ⟨(c6_pure_idempotent ⟨demoA, none⟩ ⟨demoA, none⟩).1,
   (c6_pure_idempotent ⟨demoA, none⟩ ⟨demoA, none⟩).2.1,
   (c6_pure_idempotent ⟨demoA, none⟩ ⟨demoA, none⟩).2.2 rfl⟩

/-- The worked example of the spec rendered with the labels the engine actually
matches on; values as in the spec: anchor 1000→1200, short-term assets
400→600, short-term liabilities 200→300. -/
def vietRows : List RawRow :=
  [⟨"TỔNG CỘNG TÀI SẢN", some 1000, some 1200⟩,
   ⟨"TÀI SẢN NGẮN HẠN", some 400, some 600⟩,
   ⟨"NỢ NGẮN HẠN", some 200, some 300⟩]

/-- The enriched frame the engine produces on `vietRows`. -/
def vietOut : List ProcessedRow :=
  [⟨"TỔNG CỘNG TÀI SẢN", 1000, 1200, 20, 100, 100⟩,
   ⟨"TÀI SẢN NGẮN HẠN", 400, 600, 50, 40, 50⟩,
   ⟨"NỢ NGẮN HẠN", 200, 300, 50, 20, 25⟩]

theorem process_vietRows : process_financial_data vietRows = Except.ok vietOut := by
  rw [process_ok_of_find vietRows ⟨"TỔNG CỘNG TÀI SẢN", 1000, 1200⟩ (by decide)]
  norm_num [vietRows, vietOut, normalizeRow, toNumeric, enrichRow, denom, eps]

/-- The spec example verbatim: English labels.  No label contains the
anchor pattern the code searches for. -/
def englishRows : List RawRow :=
  [⟨"TOTAL ASSETS", some 1000, some 1200⟩,
   ⟨"SHORT-TERM ASSETS", some 400, some 600⟩,
   ⟨"SHORT-TERM LIABILITIES", some 200, some 300⟩]

/-- C7 counterexample: on the literal input rows of the claim (English labels)
the derivation does not succeed at all: the engine fails with the
missing-anchor error, because no label contains `TỔNG CỘNG TÀI SẢN`. -/
theorem c7_example_counterexample :
    process_financial_data englishRows = Except.error DeriveError.missingAnchorRow :=
  process_err_of_find englishRows (by decide)

/-- C7 amended: with the labels the engine actually matches
(`TỔNG CỘNG TÀI SẢN`, `TÀI SẢN NGẮN HẠN`, `NỢ NGẮN HẠN`) and the same
values, the derivation succeeds, the growth of the anchor row is 20, the
current weight of the short-term-assets row is 50, and the liquidity ratio is
2 for both periods. -/
theorem c7_example_amended :
    process_financial_data vietRows = Except.ok vietOut ∧
    (vietOut.get? 0).map (fun r => r.tocDoTangTruong) = some 20 ∧
    (vietOut.get? 1).map (fun r => r.tyTrongNamSau) = some 50 ∧
    thanh_toan_hien_hanh vietOut = some (FVal.fin 2, FVal.fin 2) := by
  refine ⟨process_vietRows, by decide, by decide, ?_⟩
  have h1 : vietOut.find? (fun r => tsnhMatch r.chiTieu) =
      some ⟨"TÀI SẢN NGẮN HẠN", 400, 600, 50, 40, 50⟩ := by decide
  have h2 : vietOut.find? (fun r => nnhMatch r.chiTieu) =
      some ⟨"NỢ NGẮN HẠN", 200, 300, 50, 20, 25⟩ := by decide
  unfold thanh_toan_hien_hanh
  rw [h1, h2]
  norm_num [pydiv]

/-- A statement whose short-term-assets row matches only as a substring:
its label is not exactly the pattern after upper-casing and stripping. -/
def rows8 : List RawRow :=
  [⟨"TỔNG CỘNG TÀI SẢN", some 1000, some 1200⟩,
   ⟨"A. TÀI SẢN NGẮN HẠN", some 400, some 600⟩]

/-- The enriched frame the engine produces on `rows8`. -/
def out8 : List ProcessedRow :=
  [⟨"TỔNG CỘNG TÀI SẢN", 1000, 1200, 20, 100, 100⟩,
   ⟨"A. TÀI SẢN NGẮN HẠN", 400, 600, 50, 40, 50⟩]

/-- C8 counterexample: on `rows8` a row matching the short-term-assets
pattern by case-insensitive substring exists in the processed frame, yet
the key-metrics excerpt marks the short-term-assets growth `N/A`
(`none`), because the availability test uses an exact match on the
upper-cased, stripped label, not the substring rule. -/
theorem c8_excerpt_counterexample :
    process_financial_data rows8 = Except.ok out8 ∧
    out8.any (fun r => tsnhMatch r.chiTieu) = true ∧
    tang_truong_tsnh_entry out8 = none := by
  refine ⟨?_, by decide, by decide⟩
  rw [process_ok_of_find rows8 ⟨"TỔNG CỘNG TÀI SẢN", 1000, 1200⟩ (by decide)]
  norm_num [rows8, out8, normalizeRow, toNumeric, enrichRow, denom, eps]

/-- C8 amended: the short-term-assets growth of the excerpt is governed by an
exact membership test on upper-cased, stripped labels: it is `N/A` when no
label is exactly the pattern after that normalization (even if a substring
match exists), and when some label is, the value shown is the growth of
the first row matching by case-insensitive substring. -/
theorem c8_excerpt_amended (rows : List ProcessedRow) :
    (rows.any (fun r => upperStrip r.chiTieu == tsnhPat) = false →
      tang_truong_tsnh_entry rows = none) ∧
    ∀ r, rows.any (fun r => upperStrip r.chiTieu == tsnhPat) = true →
      rows.find? (fun r => tsnhMatch r.chiTieu) = some r →
      tang_truong_tsnh_entry rows = some r.tocDoTangTruong := by
  constructor
  · intro h
    simp [tang_truong_tsnh_entry, h]
  · intro r hany hfind
    simp [tang_truong_tsnh_entry, hany, hfind]

/-- A processed frame whose short-term-assets label is exactly the
pattern. -/
def rows9 : List ProcessedRow :=
  [⟨"TÀI SẢN NGẮN HẠN", 400, 600, 50, 40, 50⟩]

/-- C8 witness: on `rows9` the exact-label test passes, the first
substring match is the row itself, and the excerpt shows its growth. -/
theorem c8_excerpt_amended_witness :
    rows9.any (fun r => upperStrip r.chiTieu == tsnhPat) = true ∧
    rows9.find? (fun r => tsnhMatch r.chiTieu) =
      some ⟨"TÀI SẢN NGẮN HẠN", 400, 600, 50, 40, 50⟩ ∧
    tang_truong_tsnh_entry rows9 =
      some (ProcessedRow.tocDoTangTruong ⟨"TÀI SẢN NGẮN HẠN", 400, 600, 50, 40, 50⟩) :=
  ⟨by decide, by decide,
   (c8_excerpt_amended rows9).2 ⟨"TÀI SẢN NGẮN HẠN", 400, 600, 50, 40, 50⟩ (by decide) (by decide)⟩

/-- C9: a successful derivation returns the same row sequence in the same
order, the label and the two value columns unchanged up to the numeric
coercion of step 1. -/
theorem c9_frame_preserved (rows : List RawRow) (out : List ProcessedRow)
    (hout : process_financial_data rows = Except.ok out) :
    out.length = rows.length ∧
    ∀ i, (out.get? i).map (fun pr => (pr.chiTieu, pr.namTruoc, pr.namSau)) =
      (rows.get? i).map (fun r => (r.chiTieu, toNumeric r.namTruoc, toNumeric r.namSau)) := by
  cases hfind : (rows.map normalizeRow).find? (fun r => anchorMatch r.chiTieu) with
  | none =>
      rw [process_err_of_find rows hfind] at hout
      exact absurd hout (by simp)
  | some a =>
      rw [process_ok_of_find rows a hfind] at hout
      obtain rfl := (Except.ok.injEq _ _).mp hout.symm
      refine ⟨by simp, ?_⟩
      intro i
      rw [List.get?_map, List.get?_map]
      cases rows.get? i <;> rfl

/-- C9 witness: `c9_frame_preserved` instantiated on the concrete
statement `vietRows` and its concrete output `vietOut`. -/
theorem c9_frame_preserved_witness :
    process_financial_data vietRows = Except.ok vietOut ∧
    (vietOut.length = vietRows.length ∧
      ∀ i, (vietOut.get? i).map (fun pr => (pr.chiTieu, pr.namTruoc, pr.namSau)) =
        (vietRows.get? i).map (fun r => (r.chiTieu, toNumeric r.namTruoc, toNumeric r.namSau))) :=
  ⟨process_vietRows, c9_frame_preserved vietRows vietOut process_vietRows⟩

/-- Liquidity rows present, but the liabilities cells hold unparsable text
and are coerced to `0`. -/
def demoDivZero : List RawRow :=
  [⟨"TỔNG CỘNG TÀI SẢN", some 1000, some 1200⟩,
   ⟨"TÀI SẢN NGẮN HẠN", some 400, some 600⟩,
   ⟨"NỢ NGẮN HẠN", none, none⟩]

/-- The enriched frame the engine produces on `demoDivZero`. -/
def demoDivZeroOut : List ProcessedRow :=
  [⟨"TỔNG CỘNG TÀI SẢN", 1000, 1200, 20, 100, 100⟩,
   ⟨"TÀI SẢN NGẮN HẠN", 400, 600, 50, 40, 50⟩,
   ⟨"NỢ NGẮN HẠN", 0, 0, 0, 0, 0⟩]

/-- As `demoDivZero`, but the assets cells are unparsable too. -/
def demoNaN : List RawRow :=
  [⟨"TỔNG CỘNG TÀI SẢN", some 1000, some 1200⟩,
   ⟨"TÀI SẢN NGẮN HẠN", none, none⟩,
   ⟨"NỢ NGẮN HẠN", none, none⟩]

/-- The enriched frame the engine produces on `demoNaN`. -/
def demoNaNOut : List ProcessedRow :=
  [⟨"TỔNG CỘNG TÀI SẢN", 1000, 1200, 20, 100, 100⟩,
   ⟨"TÀI SẢN NGẮN HẠN", 0, 0, 0, 0, 0⟩,
   ⟨"NỢ NGẮN HẠN", 0, 0, 0, 0, 0⟩]

/-- C10: the liquidity division has no zero-guard: with both liquidity
rows present but the liabilities values coerced to `0` from unparsable
text, the ratio is `value / 0`, which numpy turns into `+inf` for both
periods (and into `NaN` when the assets values are also `0`) — not `N/A`
and not a `1e-9`-guarded finite number. -/
theorem c10_liquidity_unguarded :
    (process_financial_data demoDivZero = Except.ok demoDivZeroOut ∧
      demoDivZeroOut.any (fun r => tsnhMatch r.chiTieu) = true ∧
      demoDivZeroOut.any (fun r => nnhMatch r.chiTieu) = true ∧
      thanh_toan_hien_hanh demoDivZeroOut = some (FVal.posInf, FVal.posInf)) ∧
    process_financial_data demoNaN = Except.ok demoNaNOut ∧
    thanh_toan_hien_hanh demoNaNOut = some (FVal.nan, FVal.nan) := by
  refine ⟨⟨?_, by decide, by decide, by decide⟩, ?_, by decide⟩
  · rw [process_ok_of_find demoDivZero ⟨"TỔNG CỘNG TÀI SẢN", 1000, 1200⟩ (by decide)]
    norm_num [demoDivZero, demoDivZeroOut, normalizeRow, toNumeric, enrichRow, denom, eps]
  · rw [process_ok_of_find demoNaN ⟨"TỔNG CỘNG TÀI SẢN", 1000, 1200⟩ (by decide)]
    norm_num [demoNaN, demoNaNOut, normalizeRow, toNumeric, enrichRow, denom, eps]

end FinApp
